import Mathlib

/-!
Shallow embedding of the GRC advisor's deterministic core:

* the scoring framework (`part_001` = `scoringFramework.js`):
  `INDUSTRY_WEIGHTS`, the six dimension scorers, `clamp`,
  `calculateMaturityScore`, `identifyGaps`;
* the two risk-pool builders (`part_000`, an engine variant, and
  `src/logic/grcEngine.js`): `generateBaseRisks` in both variants;
* the report assembler of `src/logic/grcEngine.js`: `generateReport`
  with its deterministic fallbacks.

Modelling conventions:

* A JavaScript string field that may be `undefined` is `Option String`
  (`none` = absent/undefined); `p.f === 'x'` becomes `p.f = some "x"` and
  `p.f !== 'x'` becomes `p.f ≠ some "x"` (true when the field is absent,
  exactly as in JS).
* Numeric profile fields are `Option Int` (`none` = undefined; in JS
  `undefined > 0` is false and `undefined` is falsy).
* JS numbers in the weighted-overall computation are modelled exactly in
  integer thousandths: every weight in `INDUSTRY_WEIGHTS` is an integer
  multiple of 0.001 (e.g. 0.15 = 150/1000), and all dimension scores are
  integers, so `Σ score_i * weight_i` is an exact multiple of 1/1000;
  the field `weightMilli` stores `1000 × weight`.  `Math.round(x)` for
  `x = m/1000` is `⌊m/1000 + 1/2⌋ = (2*m + 1000).fdiv 2000`.
* Fallible JS code (a thrown `TypeError`) is `Except Unit`.
* `Array.prototype.sort` with comparator `(a, b) => b.score - a.score` is
  a stable descending sort by `score`; it is realised by Mathlib's stable
  `List.insertionSort` with the relation `fun a b => b.score ≤ a.score`.
-/

/-- Assessment profile: the fields read by the deterministic core
(scoring framework, gap identifier, both risk-pool builders, fallback
text generators).  Fields consumed only by the external AI prompt
builders are not part of the deterministic computations and are omitted. -/
structure Profile where
  name : Option String
  industry : Option String
  policiesDocumented : Option String
  cisoPresent : Option String
  securityTeamSize : Option Int
  managementReview : Option String
  riskAssessmentFreq : Option String
  cyberInsurance : Option String
  bcpDocumented : Option String
  backupFrequency : Option String
  complianceFrameworks : Option (List String)
  privacyProgram : Option String
  lastAuditDate : Option String
  firewallEnabled : Option String
  networkSegmentation : Option String
  antivirus : Option String
  edr : Option String
  vulnerabilityScanning : Option String
  patchingAutomated : Option String
  mfa : Option String
  sso : Option String
  encryption : Option String
  codeReview : Option String
  incidentResponsePlan : Option String
  securityTraining : Option String
  vendorRiskProgram : Option String
  remote : Option String
  hosting : Option String
  cloudDataClassification : Option String
  vendors : Option String
  criticalVendorCount : Option Int
  vendorRiskAssessments : Option String
  dataTypes : Option (List String)
  dataEncryptionAtRest : Option String
  dataEncryptionInTransit : Option String
  logging : Option String
  compliance : Option String
  privilegedAccessManagement : Option String
deriving DecidableEq

/-- A profile with every field undefined. -/
def emptyProfile : Profile :=
  { name := none, industry := none, policiesDocumented := none,
    cisoPresent := none, securityTeamSize := none, managementReview := none,
    riskAssessmentFreq := none, cyberInsurance := none, bcpDocumented := none,
    backupFrequency := none, complianceFrameworks := none,
    privacyProgram := none, lastAuditDate := none, firewallEnabled := none,
    networkSegmentation := none, antivirus := none, edr := none,
    vulnerabilityScanning := none, patchingAutomated := none, mfa := none,
    sso := none, encryption := none, codeReview := none,
    incidentResponsePlan := none, securityTraining := none,
    vendorRiskProgram := none, remote := none, hosting := none,
    cloudDataClassification := none, vendors := none,
    criticalVendorCount := none, vendorRiskAssessments := none,
    dataTypes := none, dataEncryptionAtRest := none,
    dataEncryptionInTransit := none, logging := none, compliance := none,
    privilegedAccessManagement := none }

/-! Industry weight table (`INDUSTRY_WEIGHTS` in the scoring framework). -/

/-- One dimension entry: `{ weight, threshold, label }`.
`weightMilli` is the weight in thousandths (0.15 ↦ 150). -/
structure DimCfg where
  weightMilli : Int
  threshold : Int
  label : Option String
deriving DecidableEq

/-- The `dimensions` object of an industry entry. -/
structure Dimensions where
  governance : DimCfg
  risk : DimCfg
  compliance : DimCfg
  technical : DimCfg
  application : DimCfg
  operational : DimCfg
deriving DecidableEq

/-- One industry entry of `INDUSTRY_WEIGHTS`: dimensions plus the
(optional) `penalties` and `bonuses` tables, modelled as association
lists from penalty/bonus name to amount. -/
structure IndustryCfg where
  dimensions : Dimensions
  penalties : List (String × Int)
  bonuses : List (String × Int)
deriving DecidableEq

/-- The whole `INDUSTRY_WEIGHTS` constant: keys `fintech`, `healthcare`,
`saas`, `default`. -/
structure IndustryTable where
  fintech : IndustryCfg
  healthcare : IndustryCfg
  saas : IndustryCfg
  default : IndustryCfg
deriving DecidableEq

def INDUSTRY_WEIGHTS : IndustryTable :=
  { fintech :=
      { dimensions :=
          { governance := ⟨150, 75, some "Governance & Strategy"⟩
            risk := ⟨150, 80, some "Risk & Continuity"⟩
            compliance := ⟨250, 90, some "Compliance & Privacy"⟩
            technical := ⟨150, 85, some "Technical Security"⟩
            application := ⟨150, 85, some "App & Data Security"⟩
            operational := ⟨150, 80, some "Operational Security"⟩ }
        penalties := [("no_mfa", -25), ("no_encryption", -25),
                      ("no_incident_response", -20)]
        bonuses := [("cert_exists", 10)] }
    healthcare :=
      { dimensions :=
          { governance := ⟨100, 70, none⟩
            risk := ⟨150, 80, none⟩
            compliance := ⟨300, 95, none⟩
            technical := ⟨150, 80, none⟩
            application := ⟨150, 85, none⟩
            operational := ⟨150, 80, none⟩ }
        penalties := []
        bonuses := [] }
    saas :=
      { dimensions :=
          { governance := ⟨100, 70, none⟩
            risk := ⟨150, 75, none⟩
            compliance := ⟨150, 80, none⟩
            technical := ⟨200, 85, none⟩
            application := ⟨250, 90, none⟩
            operational := ⟨150, 80, none⟩ }
        penalties := []
        bonuses := [] }
    default :=
      { dimensions :=
          { governance := ⟨166, 70, some "Governance & Strategy"⟩
            risk := ⟨166, 70, some "Risk & Continuity"⟩
            compliance := ⟨166, 70, some "Compliance & Privacy"⟩
            technical := ⟨166, 70, some "Technical Security"⟩
            application := ⟨166, 70, some "App & Data Security"⟩
            operational := ⟨166, 70, some "Operational Security"⟩ }
        penalties := [("no_mfa", -20), ("no_backup", -20)]
        bonuses := [] } }

/-! Dimension scorers. -/

/-- The helper `clamp(val) { return Math.max(0, Math.min(100, val)); }`. -/
def clamp (val : Int) : Int := max 0 (min 100 val)

/-- JS truthiness of an optional number combined with `> 0`, as in
`profile.securityTeamSize && profile.securityTeamSize > 0`
(`undefined`, `0` are falsy). -/
def numTruthyPos (o : Option Int) : Bool :=
  match o with
  | some n => n != 0 && 0 < n
  | none => false

/-- JS `profile.f && profile.f !== bad` for a string field: an absent or
empty string is falsy, otherwise the field must differ from `bad`. -/
def strTruthyNe (o : Option String) (bad : String) : Bool :=
  match o with
  | some s => s != "" && s != bad
  | none => false

/-- Governance & Strategy score. -/
def calculateGovernanceScore (p : Profile) : Int :=
  let score : Int := 50
  let score := if p.policiesDocumented = some "complete" then score + 20
    else if p.policiesDocumented = some "partial" then score + 10
    else score - 15
  let score := if p.cisoPresent = some "yes" then score + 15 else score
  let score := if numTruthyPos p.securityTeamSize then score + 10 else score
  -- JS: `profile.managementReview && profile.managementReview !== 'never'`
  -- (an absent or empty string is falsy).
  let score := if strTruthyNe p.managementReview "never" then score + 5
    else score
  clamp score

/-- Risk & Continuity score. -/
def calculateRiskScore (p : Profile) : Int :=
  let score : Int := 50
  let score := if p.riskAssessmentFreq = some "annual" ∨
                  p.riskAssessmentFreq = some "quarterly"
    then score + 15 else score - 10
  let score := if p.cyberInsurance = some "yes" then score + 10 else score
  let score := if p.bcpDocumented = some "yes" then score + 15 else score - 10
  let score := if p.backupFrequency = some "daily" ∨
                  p.backupFrequency = some "real_time" then score + 10
    else if p.backupFrequency = some "none" then score - 20
    else score
  clamp score

/-- Compliance & Privacy score. -/
def calculateComplianceScore (p : Profile) : Int :=
  let score : Int := 50
  -- `const certs = profile.complianceFrameworks || [];`
  let certs := p.complianceFrameworks.getD []
  let score := if certs.length > 0 then score + 20 else score
  let score := if certs.contains "iso27001" ∨ certs.contains "soc2"
    then score + 10 else score
  let score := if p.privacyProgram = some "yes" then score + 10 else score
  -- JS: `profile.lastAuditDate && profile.lastAuditDate !== 'never'`.
  let score := if strTruthyNe p.lastAuditDate "never" then score + 10
    else score
  clamp score

/-- Technical Security score. -/
def calculateTechnicalScore (p : Profile) : Int :=
  let score : Int := 50
  let score := if p.firewallEnabled = some "yes" then score + 10 else score
  let score := if p.networkSegmentation = some "yes" then score + 10 else score
  let score := if p.antivirus = some "yes" ∨ p.edr = some "yes"
    then score + 10 else score
  let score := if p.vulnerabilityScanning = some "regular" then score + 15
    else if p.vulnerabilityScanning = some "never" then score - 15
    else score
  let score := if p.patchingAutomated = some "yes" then score + 5 else score
  clamp score

/-- Application & Data Security score. -/
def calculateApplicationScore (p : Profile) : Int :=
  let score : Int := 50
  let score := if p.mfa = some "mandatory" then score + 25
    else if p.mfa = some "optional" then score - 10
    else score - 25
  let score := if p.sso = some "yes" then score + 5 else score
  let score := if p.encryption = some "yes" then score + 15 else score
  let score := if p.codeReview = some "yes" then score + 10 else score
  clamp score

/-- Operational Security score. -/
def calculateOperationalScore (p : Profile) : Int :=
  let score : Int := 50
  let score := if p.incidentResponsePlan = some "yes" then score + 20
    else score - 15
  let score := if p.securityTraining = some "regular" then score + 15
    else score - 10
  let score := if p.vendorRiskProgram = some "yes" then score + 10 else score
  clamp score

/-! Main calculation (`calculateMaturityScore`). -/

/-- The constant `labels` object of the returned maturity result. -/
structure Labels where
  governance : String
  risk : String
  compliance : String
  technical : String
  application : String
  operational : String
deriving DecidableEq

def maturityLabels : Labels :=
  { governance := "Governance & Strategy"
    risk := "Risk & Continuity"
    compliance := "Compliance & Privacy"
    technical := "Technical Security"
    application := "App & Data Security"
    operational := "Operational Security" }

/-- Result of `calculateMaturityScore`. -/
structure MaturityResult where
  overall : Int
  governance : Int
  risk : Int
  compliance : Int
  technical : Int
  application : Int
  operational : Int
  labels : Labels
deriving DecidableEq

/-- Industry selection on the non-throwing path of
`INDUSTRY_WEIGHTS[profile.industry] ? profile.industry : 'default'`
followed by `INDUSTRY_WEIGHTS[industryKey] || INDUSTRY_WEIGHTS.default`:
a recognized own key selects its entry, anything else selects
`default`.  The full JS bracket-lookup semantics — including the
inherited `Object.prototype` members on which the source throws — is
`industryLookup`/`calcChecked` below; `calcChecked_ok_agrees` shows
that this selection is exactly its completing-run projection. -/
def configFor (t : IndustryTable) (industry : Option String) : IndustryCfg :=
  if industry = some "fintech" then t.fintech
  else if industry = some "healthcare" then t.healthcare
  else if industry = some "saas" then t.saas
  else if industry = some "default" then t.default
  else t.default

/-- `dims.governance?.weight || 0.166`, at the thousandth scale: a zero
(falsy) weight falls back to 0.166.  In the actual table every weight is
present and nonzero, so this always yields the declared weight. -/
def wMilli (d : DimCfg) : Int :=
  if d.weightMilli = 0 then 166 else d.weightMilli

/-- `Math.round(m / 1000)` for an exact thousandth `m/1000`:
`⌊m/1000 + 1/2⌋ = fdiv (2*m + 1000) 2000` (`fdiv` is floor division,
matching `Math.round(x) = ⌊x + 0.5⌋`). -/
def roundMilli (m : Int) : Int := (2 * m + 1000).fdiv 2000

/-- `clamp` applied at the thousandth scale (`clamp(overall)` before
rounding). -/
def clampMilli (m : Int) : Int := max 0 (min 100000 m)

/-- The weighted sum `overall = Σ s_i * w_i` at the thousandth scale. -/
def weightedSumMilli (dims : Dimensions) (p : Profile) : Int :=
  calculateGovernanceScore p * wMilli dims.governance +
  calculateRiskScore p * wMilli dims.risk +
  calculateComplianceScore p * wMilli dims.compliance +
  calculateTechnicalScore p * wMilli dims.technical +
  calculateApplicationScore p * wMilli dims.application +
  calculateOperationalScore p * wMilli dims.operational

/-- The weighted overall with the global penalties applied:
`overall -= 5` for absent MFA, `overall -= 5` for absent backups
(at the thousandth scale). -/
def rawOverallMilli (dims : Dimensions) (p : Profile) : Int :=
  weightedSumMilli dims p -
  (if p.mfa = some "none" then 5000 else 0) -
  (if p.backupFrequency = some "none" then 5000 else 0)

/-- Body of `calculateMaturityScore` once the industry config has been
selected; only `config.dimensions` is ever read.  The returned dimension
fields are `Math.round` of the already-integral clamped dimension
scores, i.e. the scores themselves. -/
def calcWithDims (dims : Dimensions) (p : Profile) : MaturityResult :=
  { overall := roundMilli (clampMilli (rawOverallMilli dims p))
    governance := calculateGovernanceScore p
    risk := calculateRiskScore p
    compliance := calculateComplianceScore p
    technical := calculateTechnicalScore p
    application := calculateApplicationScore p
    operational := calculateOperationalScore p
    labels := maturityLabels }

/-- `calculateMaturityScore` parametrised by the weight table (the
source reads the module-level constant `INDUSTRY_WEIGHTS`). -/
def calcWith (t : IndustryTable) (p : Profile) : MaturityResult :=
  calcWithDims (configFor t p.industry).dimensions p

/-- `calculateMaturityScore(profile)` of the scoring framework. -/
def calculateMaturityScore (p : Profile) : MaturityResult :=
  calcWith INDUSTRY_WEIGHTS p

/-! The full JS property-lookup semantics of the industry selection.
`INDUSTRY_WEIGHTS` is a plain object literal, so a bracket read
consults the prototype chain: besides the four own keys, property
names inherited from `Object.prototype` (all of them truthy functions,
or `Object.prototype` itself for the `__proto__` accessor) are found
too.  For such an industry the truthiness test passes, `config`
becomes the inherited member, `config.dimensions` is `undefined`, and
the read `dims.governance` in the weighted sum throws a `TypeError`. -/

/-- Result of the JS property read `INDUSTRY_WEIGHTS[key]`: an own
entry of the table, an inherited `Object.prototype` member (truthy but
without a `dimensions` field), or `undefined`. -/
inductive JsLookup where
  | cfg (c : IndustryCfg)
  | protoMember
  | absent
deriving DecidableEq

/-- The accessible property names a plain object literal inherits from
`Object.prototype`; reading any of them yields a truthy value. -/
def OBJECT_PROTOTYPE_KEYS : List String :=
  ["constructor", "hasOwnProperty", "isPrototypeOf",
   "propertyIsEnumerable", "toLocaleString", "toString", "valueOf",
   "__proto__", "__defineGetter__", "__defineSetter__",
   "__lookupGetter__", "__lookupSetter__"]

/-- `INDUSTRY_WEIGHTS[k]` for a string key `k`, prototype chain
included: an own key yields its entry, an inherited `Object.prototype`
name yields the (truthy, non-config) inherited member, anything else
is `undefined`. -/
def tableLookup (t : IndustryTable) (k : String) : JsLookup :=
  if k = "fintech" then .cfg t.fintech
  else if k = "healthcare" then .cfg t.healthcare
  else if k = "saas" then .cfg t.saas
  else if k = "default" then .cfg t.default
  else if k ∈ OBJECT_PROTOTYPE_KEYS then .protoMember
  else .absent

/-- `INDUSTRY_WEIGHTS[profile.industry]`: a non-string key is coerced
to its string form, so an undefined `industry` reads the (absent)
property named `undefined`. -/
def industryLookup (t : IndustryTable) (industry : Option String) :
    JsLookup :=
  tableLookup t (industry.getD "undefined")

/-- `calculateMaturityScore` under the full lookup semantics: when the
bracket read finds an own entry, the computation completes with that
entry's dimensions; when it finds nothing, the falsy test selects the
`default` entry; when it finds an inherited `Object.prototype` member,
the truthiness test keeps the profile's industry as the key, `config`
is the inherited member, `config.dimensions` is `undefined`, and the
read `dims.governance` throws a `TypeError` (`Except.error`). -/
def calcChecked (t : IndustryTable) (p : Profile) :
    Except Unit MaturityResult :=
  match industryLookup t p.industry with
  | .cfg c => .ok (calcWithDims c.dimensions p)
  | .protoMember => .error ()
  | .absent => .ok (calcWithDims t.default.dimensions p)

/-- The fallible `calculateMaturityScore(profile)` of the scoring
framework, full lookup semantics included. -/
def calculateMaturityScoreChecked (p : Profile) :
    Except Unit MaturityResult :=
  calcChecked INDUSTRY_WEIGHTS p

/-! Gap identification (`identifyGaps`). -/

/-- One gap record `{ category, severity, description }`. -/
structure Gap where
  category : String
  severity : String
  description : String
deriving DecidableEq

/-- `identifyGaps(profile, scores)`: nine rules pushed in declaration
order (Governance, Risk ×2, Compliance, Technical, Application ×2,
Operational ×2). -/
def identifyGaps (p : Profile) (scores : MaturityResult) : List Gap :=
  (if scores.governance < 60 then
    [⟨"Governance", "High",
      "Lack of formal security leadership and documented policies."⟩]
   else []) ++
  (if p.backupFrequency = some "none" then
    [⟨"Risk", "Critical",
      "No backup strategy found—data loss is imminent in an attack."⟩]
   else []) ++
  (if p.bcpDocumented ≠ some "yes" ∧ scores.risk < 50 then
    [⟨"Risk", "Medium", "Undefined Business Continuity Plan."⟩]
   else []) ++
  (if scores.compliance < 50 ∧
      (p.industry = some "fintech" ∨ p.industry = some "healthcare") then
    [⟨"Compliance", "High",
      "Compliance posture is weak for a regulated industry."⟩]
   else []) ++
  (if p.vulnerabilityScanning = some "never" then
    [⟨"Technical", "High", "No visibility into system vulnerabilities."⟩]
   else []) ++
  (if p.mfa = some "none" then
    [⟨"Application", "Critical",
      "Multi-Factor Authentication (MFA) is not enabled."⟩]
   else []) ++
  (if p.encryption = some "no" then
    [⟨"Application", "High", "Sensitive data is not encrypted."⟩]
   else []) ++
  (if p.incidentResponsePlan ≠ some "yes" then
    [⟨"Operational", "High",
      "No Incident Response Plan to handle breaches."⟩]
   else []) ++
  (if p.securityTraining ≠ some "regular" then
    [⟨"Operational", "Medium",
      "Employees are not trained on security risks."⟩]
   else [])

/-- The nine gap rules as a declaration-ordered rule list (decidable
guard paired with the emitted gap), used to state that `identifyGaps`
emits exactly the fired rules in declaration order. -/
def gapRules : List ((Profile → MaturityResult → Bool) × Gap) :=
  [ (fun _ s => decide (s.governance < 60),
     ⟨"Governance", "High",
      "Lack of formal security leadership and documented policies."⟩),
    (fun p _ => decide (p.backupFrequency = some "none"),
     ⟨"Risk", "Critical",
      "No backup strategy found—data loss is imminent in an attack."⟩),
    (fun p s => decide (p.bcpDocumented ≠ some "yes" ∧ s.risk < 50),
     ⟨"Risk", "Medium", "Undefined Business Continuity Plan."⟩),
    (fun p s => decide (s.compliance < 50 ∧
      (p.industry = some "fintech" ∨ p.industry = some "healthcare")),
     ⟨"Compliance", "High",
      "Compliance posture is weak for a regulated industry."⟩),
    (fun p _ => decide (p.vulnerabilityScanning = some "never"),
     ⟨"Technical", "High", "No visibility into system vulnerabilities."⟩),
    (fun p _ => decide (p.mfa = some "none"),
     ⟨"Application", "Critical",
      "Multi-Factor Authentication (MFA) is not enabled."⟩),
    (fun p _ => decide (p.encryption = some "no"),
     ⟨"Application", "High", "Sensitive data is not encrypted."⟩),
    (fun p _ => decide (p.incidentResponsePlan ≠ some "yes"),
     ⟨"Operational", "High",
      "No Incident Response Plan to handle breaches."⟩),
    (fun p _ => decide (p.securityTraining ≠ some "regular"),
     ⟨"Operational", "Medium",
      "Employees are not trained on security risks."⟩) ]

/-- Gaps of the fired rules, in declaration order. -/
def firedGaps (p : Profile) (s : MaturityResult) :
    List ((Profile → MaturityResult → Bool) × Gap) → List Gap
  | [] => []
  | r :: rs =>
    if r.1 p s then r.2 :: firedGaps p s rs else firedGaps p s rs

/-! Risk records and scales (shared by both engine variants). -/

/-- A pool risk record as pushed by `addToPool` (temporary string id
`R1`, `R2`, ...). -/
structure RiskRecord where
  id : String
  risk : String
  likelihoodScore : Nat
  likelihoodLabel : String
  consequenceScore : Nat
  consequenceLabel : String
  score : Nat
  level : String
  mitigation : String
deriving DecidableEq

/-- A returned risk record after re-indexing (`{...r, id: index + 1}`):
the temporary string id is replaced by a sequential integer id. -/
structure RankedRisk where
  id : Nat
  risk : String
  likelihoodScore : Nat
  likelihoodLabel : String
  consequenceScore : Nat
  consequenceLabel : String
  score : Nat
  level : String
  mitigation : String
deriving DecidableEq

/-- `LIKELIHOOD_SCALE` lookup (keys 1-5; any other key yields JS
`undefined`, modelled by a marker string; all call sites pass 1-5). -/
def likelihoodLabelOf (n : Nat) : String :=
  if n = 1 then "Rare"
  else if n = 2 then "Unlikely"
  else if n = 3 then "Possible"
  else if n = 4 then "Likely"
  else if n = 5 then "Almost Certain"
  else "undefined"

/-- `CONSEQUENCE_SCALE` lookup (keys 1-6). -/
def consequenceLabelOf (n : Nat) : String :=
  if n = 1 then "Insignificant"
  else if n = 2 then "Minor"
  else if n = 3 then "Moderate"
  else if n = 4 then "Major"
  else if n = 5 then "Catastrophic"
  else if n = 6 then "Doomsday"
  else "undefined"

/-- `getRiskLevel` of the engine variant (breakpoints 20/12/6). -/
def getRiskLevelVariant (score : Nat) : String :=
  if score ≥ 20 then "Extreme"
  else if score ≥ 12 then "High"
  else if score ≥ 6 then "Medium"
  else "Low"

/-- `getRiskLevel` of `grcEngine.js` (breakpoints 25/15/6). -/
def getRiskLevelGrc (score : Nat) : String :=
  if score ≥ 25 then "Extreme"
  else if score ≥ 15 then "High"
  else if score ≥ 6 then "Medium"
  else "Low"

/-- Record built by `addToPool(risk, likelihoodScore, consequenceScore,
mitigation)`: the composite `score` is always
`likelihoodScore * consequenceScore`; temporary ids are attached
afterwards positionally (see `withIdsFrom`). -/
def addedRisk (lvl : Nat → String) (risk : String) (l c : Nat)
    (mitigation : String) : RiskRecord :=
  { id := ""
    risk := risk
    likelihoodScore := l
    likelihoodLabel := likelihoodLabelOf l
    consequenceScore := c
    consequenceLabel := consequenceLabelOf c
    score := l * c
    level := lvl (l * c)
    mitigation := mitigation }

/-- Temporary ids: `id: R${idCounter++}` assigns `R1`, `R2`, ... in push
order, realised positionally over the ordered pool. -/
def withIdsFrom (base : Nat) : List RiskRecord → List RiskRecord
  | [] => []
  | r :: rs =>
    { r with id := "R" ++ toString base } :: withIdsFrom (base + 1) rs

/-- Final re-indexing `selectedRisks.map((r, index) => ({...r, id:
index + 1}))`, realised positionally starting from `base = 1`. -/
def rankFrom (base : Nat) : List RiskRecord → List RankedRisk
  | [] => []
  | r :: rs =>
    { id := base
      risk := r.risk
      likelihoodScore := r.likelihoodScore
      likelihoodLabel := r.likelihoodLabel
      consequenceScore := r.consequenceScore
      consequenceLabel := r.consequenceLabel
      score := r.score
      level := r.level
      mitigation := r.mitigation } :: rankFrom (base + 1) rs

/-- The stable descending comparison realising
`pool.sort((a, b) => b.score - a.score)`. -/
def byScoreDesc (a b : RiskRecord) : Prop := b.score ≤ a.score

instance : DecidableRel byScoreDesc := fun a b =>
  inferInstanceAs (Decidable (b.score ≤ a.score))

instance : IsTotal RiskRecord byScoreDesc :=
  ⟨fun a b => le_total b.score a.score⟩

instance : IsTrans RiskRecord byScoreDesc :=
  ⟨fun _ _ _ hab hbc => le_trans hbc hab⟩

/-- JS `profile.criticalVendorCount > 0` (`undefined > 0` is false). -/
def numGtZero (o : Option Int) : Bool :=
  match o with
  | some n => 0 < n
  | none => false

/-! The engine-variant risk pool builder (`generateBaseRisks` of the
engine variant file, pool of up to 26 records, top 12). -/

/-- The universal risks of the engine variant (step 2 of the builder:
always pushed, in push order). -/
def universalRisksVariant (p : Profile) : List RiskRecord :=
  [addedRisk getRiskLevelVariant "Insider Threat / Privilege Abuse"
    (if p.privilegedAccessManagement = some "yes" then 2 else 3) 3
    "RBAC, Privileged Access Management, Audit Logging",
   addedRisk getRiskLevelVariant "Social Engineering & Phishing Attacks" 4 4
    "Security Awareness Training, Phishing Simulations, Email Filtering",
   addedRisk getRiskLevelVariant "Exploitation of Unpatched Vulnerabilities"
    3 4 "Automated Patch Management, Regular Vulnerability Scanning",
   addedRisk getRiskLevelVariant "Unsanctioned Shadow IT Usage" 3 2
    "Cloud Access Security Broker (CASB), Software Asset Management",
   addedRisk getRiskLevelVariant "Web Application Attacks (SQLi, XSS)" 3 4
    "Web Application Firewall (WAF), Secure Code Review, DAST/SAST",
   addedRisk getRiskLevelVariant "Denial of Service (DDoS) Attack" 2 3
    "DDoS Protection Services (e.g., Cloudflare), Redundancy",
   addedRisk getRiskLevelVariant "Mobile Device Compromise (BYOD)" 3 3
    "Mobile Device Management (MDM), Containerization, Remote Wipe",
   addedRisk getRiskLevelVariant "Insecure API Endpoints" 3 4
    "API Gateway, Rate Limiting, API Authentication",
   addedRisk getRiskLevelVariant "Data Integrity Corruption" 1 5
    "File Integrity Monitoring (FIM), Checksums, Backup Validation",
   addedRisk getRiskLevelVariant "Physical Security Breach" 2 3
    "Access Cards, CCTV, Visitor Management",
   addedRisk getRiskLevelVariant "Reputational Damage from Incident" 3 5
    "Crisis Communication Plan, PR Strategy",
   addedRisk getRiskLevelVariant "Theft of Intellectual Property" 2 5
    "DLP, Access Control, NDA, DRM",
   addedRisk getRiskLevelVariant "Business Interruption / Failure" 2 6
    "Business Continuity Plan (BCP), Disaster Recovery (DR) Drills",
   addedRisk getRiskLevelVariant "Insecure Default Configurations" 3 4
    "Hardening Benchmarks (CIS), Automated Config Management",
   addedRisk getRiskLevelVariant "Network Eavesdropping / MitM"
    (if p.dataEncryptionInTransit = some "yes" then 1 else 2) 3
    "End-to-End Encryption, VPN, Mutual TLS",
   addedRisk getRiskLevelVariant "Inadequate Employee Offboarding" 3 3
    "Automated Account Deprovisioning, Exit Interviews",
   addedRisk getRiskLevelVariant "Data Leakage via AI/LLM Tools" 4 4
    "AI Usage Policy, Enterprise AI Gateways",
   addedRisk getRiskLevelVariant "Brand Impersonation on Social Media" 3 2
    "Social Media Monitoring, Verified Profiles"]

/-- The ordered candidate pool of the engine variant, given the
(dereferenced) `dataTypes` list `ds`.  Conditional rules first, then
the universal rules, in push order. -/
def poolVariant (p : Profile) (ds : List String) : List RiskRecord :=
  -- 1. Profile-based risks (conditional)
  (if p.remote = some "yes" then
    [addedRisk getRiskLevelVariant "Remote Endpoint Compromise"
      (if p.mfa = some "mandatory" then 2 else 4) 4
      "Enforce Endpoint Encryption, VPN, and Mandatory MFA"]
   else []) ++
  (if p.hosting = some "cloud" then
    [addedRisk getRiskLevelVariant "Cloud Misconfiguration"
      (if p.cloudDataClassification = some "yes" then 2 else 4) 5
      "Enable Cloud Security Posture Management (CSPM), Regular Audits"]
   else []) ++
  (if p.vendors = some "yes" ∨ numGtZero p.criticalVendorCount then
    [addedRisk getRiskLevelVariant "Supply Chain / Third-Party Breach"
      (if p.vendorRiskAssessments = some "yes" then 2 else 4) 4
      "Vendor Risk Assessment Program, Least Privilege Access, SLAs"]
   else []) ++
  (if ds.contains "pii" ∨ ds.contains "financial" ∨ ds.contains "health" then
    [addedRisk getRiskLevelVariant "Data Breach / Leakage (Sensitive Data)"
      (if p.dataEncryptionAtRest = some "yes" ∧
          p.dataEncryptionInTransit = some "yes" then 2 else 4) 5
      "Data Loss Prevention (DLP), Encryption at Rest/Transit, Access Logging"]
   else []) ++
  (if p.backupFrequency = some "none" then
    [addedRisk getRiskLevelVariant "Ransomware Attack with Data Loss" 5 6
      "Implement Backup Strategy, Offline Backups, Incident Response Plan"]
   else
    [addedRisk getRiskLevelVariant "Ransomware Attack (Recoverable)" 3 4
      "Regular Backups, EDR, Incident Response Plan"]) ++
  (if p.mfa ≠ some "mandatory" then
    [addedRisk getRiskLevelVariant "Credential Stuffing / Brute Force" 5 4
      "Mandatory MFA, Strong Password Policies, Account Lockout"]
   else []) ++
  (if p.logging ≠ some "advanced" then
    [addedRisk getRiskLevelVariant "Failure to Detect Intrusions" 4 4
      "Centralized Logging, SIEM, Real-time Alerting"]
   else []) ++
  (if p.compliance = some "none" ∧
      (ds.contains "pii" ∨ p.industry = some "healthcare") then
    [addedRisk getRiskLevelVariant "Regulatory Non-Compliance Fines" 5 5
      "Compliance Audits, Legal Counsel, Policy Management"]
   else []) ++
  -- 2. Universal risks (always in pool, selected by score)
  universalRisksVariant p

/-- `generateBaseRisks` of the engine variant.  The guard of the
sensitive-data rule dereferences `profile.dataTypes` unconditionally
(`profile.dataTypes.includes('pii') || ...`), so the whole call throws a
`TypeError` when `dataTypes` is undefined; this is the only failure
point, modelled with `Except`.  Otherwise: attach temporary ids, sort
the full pool descending by `score` (stable), keep the top 12, and
renumber 1..12. -/
def generateBaseRisksVariant (p : Profile) :
    Except Unit (List RankedRisk) :=
  match p.dataTypes with
  | none => .error ()
  | some ds =>
    let pool := withIdsFrom 1 (poolVariant p ds)
    let sorted := List.insertionSort byScoreDesc pool
    .ok (rankFrom 1 (sorted.take 12))

/-! The `grcEngine.js` risk pool builder (`generateBaseRisks`, pool of
up to 13 records, top 15). -/

/-- The universal risks of `grcEngine.js` (always pushed). -/
def universalRisksGrc (p : Profile) : List RiskRecord :=
  [addedRisk getRiskLevelGrc "Phishing / Social Engineering" 4 4
    "Security Awareness Training",
   addedRisk getRiskLevelGrc "Insider Threat" 2 3
    "Least Privilege Access Control",
   addedRisk getRiskLevelGrc "Unpatched Vulnerabilities"
    (if p.patchingAutomated = some "yes" then 2 else 4) 4
    "Automated Patch Management",
   addedRisk getRiskLevelGrc "Shadow IT" 3 2 "CASB and Policy Enforcement",
   addedRisk getRiskLevelGrc "DDoS Attack" 2 3 "DDoS Mitigation Service",
   addedRisk getRiskLevelGrc "Regulatory Fines" 2 5
    "Compliance Gap Analysis"]

/-- The ordered candidate pool of `grcEngine.js` (never touches any
list-valued profile field, so it is total). -/
def poolGrc (p : Profile) : List RiskRecord :=
  -- Profile-based risks
  (if p.remote = some "yes" then
    [addedRisk getRiskLevelGrc "Remote Endpoint Compromise"
      (if p.mfa = some "mandatory" then 2 else 4) 4
      "Enforce Endpoint Encryption, VPN, and Mandatory MFA"]
   else []) ++
  (if p.hosting = some "cloud" then
    [addedRisk getRiskLevelGrc "Cloud Misconfiguration / Data Leak" 3 5
      "CSPM, Regular automated audits"]
   else []) ++
  (if p.backupFrequency = some "none" then
    [addedRisk getRiskLevelGrc "Ransomware Data Loss" 5 6
      "Implement 3-2-1 Backup Strategy immediately"]
   else
    [addedRisk getRiskLevelGrc "Ransomware Operational Impact" 3 4
      "Test Restore Procedures"]) ++
  (if p.mfa = some "none" then
    [addedRisk getRiskLevelGrc "Credential Reuse / Brute Force" 5 4
      "Implement MFA for all accesses"]
   else []) ++
  (if p.encryption = some "no" then
    [addedRisk getRiskLevelGrc "Data Theft in Transit/Rest" 3 5
      "Enable full disk encryption and TLS 1.3"]
   else []) ++
  (if p.incidentResponsePlan = some "no" then
    [addedRisk getRiskLevelGrc "Chaotic Breach Response" 4 4
      "Develop and Test IR Playbooks"]
   else []) ++
  (if p.vendorRiskProgram = some "no" then
    [addedRisk getRiskLevelGrc "Third-Party Vendor Breach" 3 4
      "Implement Vendor Risk Assessments"]
   else []) ++
  -- Universal risks (always present)
  universalRisksGrc p

/-- `generateBaseRisks` of `grcEngine.js`: attach temporary ids, sort
descending by `score` (stable), keep the top 15, renumber 1..n. -/
def generateBaseRisksGrc (p : Profile) : List RankedRisk :=
  let pool := withIdsFrom 1 (poolGrc p)
  let sorted := List.insertionSort byScoreDesc pool
  rankFrom 1 (sorted.take 15)

/-! Report assembly (`generateReport` of `grcEngine.js`). -/

/-- JS template-literal coercion of a possibly-undefined string field
(an undefined value prints as the string `undefined`). -/
def jsStr (o : Option String) : String := o.getD "undefined"

/-- A recommendation item (the shape produced by the fallback
generator; AI-produced items are carried with the same fields). -/
structure Recommendation where
  id : Nat
  title : String
  priority : String
  steps : List String
deriving DecidableEq

/-- Parsed payload of the AI recommendations call; `recommendations`
may be absent from the parsed JSON (`result.recommendations || []`). -/
structure RecPayload where
  recommendations : Option (List Recommendation)

/-- A financially quantified risk (`{risk, sle, aro, ale,
mitigationCost, roi}`). -/
structure QuantifiedRisk where
  risk : String
  sle : Int
  aro : Int
  ale : Int
  mitigationCost : Int
  roi : Int
deriving DecidableEq

/-- The constant returned by `generateMethodologyOverview()`. -/
structure Methodology where
  title : String
  executiveSummary : String
  framework : String
  principles : List (String × String)
  controls : List String
deriving DecidableEq

def generateMethodologyOverview : Methodology :=
  { title := "Six-Pillar Security Framework"
    executiveSummary := "This assessment evaluates the organization's security posture across six critical dimensions: Governance, Risk, Compliance, Technical Security, Application Security, and Operational Security. It utilizes industry-standard weighting and scoring to provide an actionable roadmap."
    framework := "Standardized GRC Maturity Model"
    principles := [("Holistic", "Covering people, process, and technology."),
      ("Risk-Based", "Prioritizing remediation based on potential business impact."),
      ("Defensible", "Aligning with recognized standards like NIST CSF and ISO 27001.")]
    controls := ["Strategic", "Tactical", "Operational"] }

/-- One entry of the structured `sections` object. -/
structure SectionEntry where
  score : Int
  title : String
deriving DecidableEq

/-- The structured `sections` object of the report. -/
structure Sections where
  governance : SectionEntry
  risk : SectionEntry
  compliance : SectionEntry
  technical : SectionEntry
  application : SectionEntry
  operational : SectionEntry
deriving DecidableEq

/-- The comprehensive report object returned by `generateReport`;
`β` is the (out-of-scope) benchmark comparison data. -/
structure Report (β : Type) where
  executiveSummary : String
  recommendations : List Recommendation
  complianceRoadmap : String
  maturity : MaturityResult
  benchmarks : β
  gaps : List Gap
  risks : List RankedRisk
  quantifiedRisks : List QuantifiedRisk
  methodology : Methodology
  sections : Sections

/-- The external AI collaborator (the four `aiEngine.js` calls).  Each
call is network-bound and non-deterministic, so it is modelled as a
capability record whose methods return a result or a failure; the
assembler only ever catches the failure and falls back. -/
structure AICollaborator where
  generateExecutiveSummary :
    Profile → MaturityResult → Except String String
  generateRecommendations :
    Profile → List Gap → MaturityResult → Except String RecPayload
  generateComplianceRoadmap : Profile → Except String String
  quantifyRisks :
    Profile → List RankedRisk → Except String (List QuantifiedRisk)

/-- `generateFallbackSummary(profile, maturity, gaps)` of
`grcEngine.js`. -/
def generateFallbackSummary (p : Profile) (maturity : MaturityResult)
    (gaps : List Gap) : String :=
  "# Executive Summary for " ++ jsStr p.name ++ "\n\nOverall Score: **" ++
    toString maturity.overall ++ "%**\n\nIdentified " ++
    toString gaps.length ++ " key gaps. Recommendations follow below."

/-- `generateFallbackRecommendations(gaps)` of `grcEngine.js`:
`gaps.slice(0, 10).map((gap, i) => ({id: i + 1, ...}))`, realised
positionally starting from `base = 1`. -/
def fallbackRecsFrom (base : Nat) : List Gap → List Recommendation
  | [] => []
  | g :: gs =>
    { id := base
      title := "Fix " ++ g.category ++ " Issue"
      priority := g.severity
      steps := ["Investigate", "Remediate"] } :: fallbackRecsFrom (base + 1) gs

def generateFallbackRecommendations (gaps : List Gap) :
    List Recommendation :=
  fallbackRecsFrom 1 (gaps.take 10)

/-- `generateFallbackComplianceRoadmap(profile)` of `grcEngine.js`. -/
def generateFallbackComplianceRoadmap (p : Profile) : String :=
  "# Compliance Roadmap\n\nFocus on standard frameworks relevant to " ++
    jsStr p.industry ++ "."

/-- The zero-filled quantified risk substituted when the AI
quantification call fails. -/
def zeroQuantified (r : RankedRisk) : QuantifiedRisk :=
  { risk := r.risk, sle := 0, aro := 0, ale := 0, mitigationCost := 0,
    roi := 0 }

/-- `generateReport(profile)` of `grcEngine.js`.  The AI collaborator
and the benchmark comparator are the two external dependencies:
`getBenchmarkComparison` comes from `./benchmarks`, a module that is
not part of the deterministic core ("treated as a pure function
dependency" per the design), so it is passed as a pure function
parameter.  Each `try { await ... } catch { fallback }` block is an
`Except` match. -/
def generateReport {β : Type} (ai : AICollaborator)
    (getBenchmarkComparison : Profile → Int → β) (p : Profile) :
    Report β :=
  let maturity := calculateMaturityScore p
  let benchmarks := getBenchmarkComparison p maturity.overall
  let gaps := identifyGaps p maturity
  let baseRisks := generateBaseRisksGrc p
  let executiveSummary :=
    match ai.generateExecutiveSummary p maturity with
    | .ok s => s
    | .error _ => generateFallbackSummary p maturity gaps
  let aiRecommendations :=
    match ai.generateRecommendations p gaps maturity with
    | .ok result => result.recommendations.getD []
    | .error _ => generateFallbackRecommendations gaps
  let complianceRoadmap :=
    match ai.generateComplianceRoadmap p with
    | .ok s => s
    | .error _ => generateFallbackComplianceRoadmap p
  let quantifiedRisks :=
    match ai.quantifyRisks p baseRisks with
    | .ok qs => qs
    | .error _ => baseRisks.map zeroQuantified
  { executiveSummary := executiveSummary
    recommendations := aiRecommendations
    complianceRoadmap := complianceRoadmap
    maturity := maturity
    benchmarks := benchmarks
    gaps := gaps
    risks := baseRisks
    quantifiedRisks := quantifiedRisks
    methodology := generateMethodologyOverview
    sections :=
      { governance := ⟨maturity.governance, maturity.labels.governance⟩
        risk := ⟨maturity.risk, maturity.labels.risk⟩
        compliance := ⟨maturity.compliance, maturity.labels.compliance⟩
        technical := ⟨maturity.technical, maturity.labels.technical⟩
        application := ⟨maturity.application, maturity.labels.application⟩
        operational := ⟨maturity.operational, maturity.labels.operational⟩ } }

/-! Helper lemmas about the embedded operations. -/

lemma clamp_nonneg (v : Int) : 0 ≤ clamp v := le_max_left 0 _

lemma clamp_le_100 (v : Int) : clamp v ≤ 100 := by
  unfold clamp
  rcases le_total 100 v with h | h <;> simp [min_def, h]

lemma clampMilli_nonneg (m : Int) : 0 ≤ clampMilli m := le_max_left 0 _

lemma clampMilli_le (m : Int) : clampMilli m ≤ 100000 := by
  unfold clampMilli
  rcases le_total 100000 m with h | h <;> simp [min_def, h]

lemma roundMilli_nonneg {m : Int} (h : 0 ≤ m) : 0 ≤ roundMilli m := by
  unfold roundMilli
  rw [Int.fdiv_eq_ediv _ (by norm_num)]
  exact Int.ediv_nonneg (by omega) (by norm_num)

lemma roundMilli_le_100 {m : Int} (h : m ≤ 100000) : roundMilli m ≤ 100 := by
  unfold roundMilli
  rw [Int.fdiv_eq_ediv _ (by norm_num)]
  have : (2 * m + 1000) / 2000 < 101 :=
    (Int.ediv_lt_iff_lt_mul (by norm_num)).mpr (by omega)
  omega

/-- Membership in a guarded singleton push. -/
lemma mem_iteSingleton {α : Type} {c : Prop} [Decidable c] {x r : α} :
    (r ∈ if c then [x] else ([] : List α)) ↔ c ∧ r = x := by
  split <;> rename_i h <;> simp [h]

/-- Membership in a two-branch push (the ransomware if/else). -/
lemma mem_iteTwo {α : Type} {c : Prop} [Decidable c] {x y r : α} :
    (r ∈ if c then [x] else [y]) ↔ (c ∧ r = x) ∨ (¬c ∧ r = y) := by
  split <;> rename_i h <;> simp [h]

/-- Appending after a guarded singleton push. -/
lemma iteSingleton_append {α : Type} {c : Prop} [Decidable c] (x : α)
    (L : List α) :
    (if c then [x] else ([] : List α)) ++ L = if c then x :: L else L := by
  split <;> simp

/-- The concatenation of guarded singleton pushes is the list of fired
rules in declaration order. -/
lemma flatten_segments_eq_firedGaps (p : Profile) (s : MaturityResult) :
    ∀ rules : List ((Profile → MaturityResult → Bool) × Gap),
      (rules.map (fun r => if r.1 p s then [r.2] else [])).flatten =
        firedGaps p s rules
  | [] => rfl
  | r :: rs => by
    rw [List.map_cons, List.flatten_cons, firedGaps,
      flatten_segments_eq_firedGaps p s rs, iteSingleton_append]

lemma countP_iteSingleton_le {α : Type} {c : Prop} [Decidable c] (x : α)
    (pr : α → Bool) :
    List.countP pr (if c then [x] else ([] : List α)) ≤ 1 := by
  split
  · simp only [List.countP_singleton]
    split <;> omega
  · simp

lemma countP_iteSingleton_zero {α : Type} {c : Prop} [Decidable c] {x : α}
    {pr : α → Bool} (hx : pr x = false) :
    List.countP pr (if c then [x] else ([] : List α)) = 0 := by
  split <;> simp [List.countP_singleton, hx]

lemma countP_iteTwo_le {α : Type} {c : Prop} [Decidable c] (x y : α)
    (pr : α → Bool) :
    List.countP pr (if c then [x] else [y]) ≤ 1 := by
  split <;>
    · simp only [List.countP_singleton]
      split <;> omega

/-! Lemmas about `withIdsFrom` (temporary ids). -/

lemma length_withIdsFrom (n : Nat) (l : List RiskRecord) :
    (withIdsFrom n l).length = l.length := by
  induction l generalizing n with
  | nil => rfl
  | cons r rs ih => simp [withIdsFrom, ih]

/-- The temporary id rewrite keeps every data field; only `id` changes. -/
lemma mem_withIdsFrom_of_mem {l : List RiskRecord} {r : RiskRecord}
    (n : Nat) (h : r ∈ l) :
    ∃ r' ∈ withIdsFrom n l, r' = { r with id := r'.id } := by
  induction l generalizing n with
  | nil => cases h
  | cons x xs ih =>
    rcases List.mem_cons.mp h with rfl | h
    · exact ⟨{ r with id := "R" ++ toString n }, List.mem_cons_self _ _, rfl⟩
    · obtain ⟨r', hr', he⟩ := ih (n + 1) h
      exact ⟨r', List.mem_cons_of_mem _ hr', he⟩

lemma mem_of_mem_withIdsFrom {l : List RiskRecord} {r' : RiskRecord}
    {n : Nat} (h : r' ∈ withIdsFrom n l) :
    ∃ r ∈ l, r' = { r with id := r'.id } := by
  induction l generalizing n with
  | nil => cases h
  | cons x xs ih =>
    rcases List.mem_cons.mp h with rfl | h
    · exact ⟨x, List.mem_cons_self _ _, rfl⟩
    · obtain ⟨r, hr, he⟩ := ih h
      exact ⟨r, List.mem_cons_of_mem _ hr, he⟩

/-- A predicate that ignores `id` counts the same before and after the
temporary-id pass. -/
lemma countP_withIdsFrom (pr : RiskRecord → Bool)
    (hpr : ∀ (r : RiskRecord) (s : String), pr { r with id := s } = pr r)
    (n : Nat) (l : List RiskRecord) :
    List.countP pr (withIdsFrom n l) = List.countP pr l := by
  induction l generalizing n with
  | nil => rfl
  | cons x xs ih =>
    simp [withIdsFrom, List.countP_cons, ih, hpr]

/-! Lemmas about `rankFrom` (final sequential ids). -/

lemma length_rankFrom (n : Nat) (l : List RiskRecord) :
    (rankFrom n l).length = l.length := by
  induction l generalizing n with
  | nil => rfl
  | cons r rs ih => simp [rankFrom, ih]

lemma map_id_rankFrom (n : Nat) (l : List RiskRecord) :
    (rankFrom n l).map RankedRisk.id = List.range' n l.length := by
  induction l generalizing n with
  | nil => rfl
  | cons r rs ih => simp [rankFrom, List.range'_succ, ih]

/-- Every ranked record carries the data fields of a source record. -/
lemma mem_of_mem_rankFrom {l : List RiskRecord} {x : RankedRisk} {n : Nat}
    (h : x ∈ rankFrom n l) :
    ∃ r ∈ l, x.risk = r.risk ∧ x.likelihoodScore = r.likelihoodScore ∧
      x.consequenceScore = r.consequenceScore ∧ x.score = r.score := by
  induction l generalizing n with
  | nil => cases h
  | cons y ys ih =>
    rcases List.mem_cons.mp h with rfl | h
    · exact ⟨y, List.mem_cons_self _ _, rfl, rfl, rfl, rfl⟩
    · obtain ⟨r, hr, he⟩ := ih h
      exact ⟨r, List.mem_cons_of_mem _ hr, he⟩

/-- Every source record is carried into some ranked record. -/
lemma mem_rankFrom_of_mem {l : List RiskRecord} {r : RiskRecord}
    (n : Nat) (h : r ∈ l) :
    ∃ x ∈ rankFrom n l, x.risk = r.risk ∧
      x.likelihoodScore = r.likelihoodScore ∧
      x.consequenceScore = r.consequenceScore ∧ x.score = r.score := by
  induction l generalizing n with
  | nil => cases h
  | cons y ys ih =>
    rcases List.mem_cons.mp h with rfl | h
    · exact ⟨_, List.mem_cons_self _ _, rfl, rfl, rfl, rfl⟩
    · obtain ⟨x, hx, he⟩ := ih (n + 1) h
      exact ⟨x, List.mem_cons_of_mem _ hx, he⟩

/-- `rankFrom` preserves the non-increasing-score shape. -/
lemma pairwise_rankFrom {l : List RiskRecord} {n : Nat}
    (h : l.Pairwise byScoreDesc) :
    (rankFrom n l).Pairwise (fun a b : RankedRisk => b.score ≤ a.score) := by
  induction l generalizing n with
  | nil => exact List.Pairwise.nil
  | cons y ys ih =>
    rcases List.pairwise_cons.mp h with ⟨hy, hys⟩
    refine List.pairwise_cons.mpr ⟨?_, ih hys⟩
    intro b hb
    obtain ⟨r, hr, _, _, _, hs⟩ := mem_of_mem_rankFrom hb
    simpa [rankFrom, hs] using hy r hr

/-- Stable-sorted selection: an element whose score is matched or
beaten by at most `n` pool entries (itself included) survives the
top-`n` truncation of the descending sort. -/
lemma mem_take_of_countP_le {l sorted : List RiskRecord}
    {x : RiskRecord} {n : Nat}
    (hperm : sorted.Perm l) (hsort : List.Sorted byScoreDesc sorted)
    (hx : x ∈ l)
    (hcount : List.countP (fun y => decide (x.score ≤ y.score)) l ≤ n) :
    x ∈ sorted.take n := by
  have hx' : x ∈ sorted := hperm.mem_iff.mpr hx
  obtain ⟨i, hi, hgi⟩ := List.getElem_of_mem hx'
  have hlt : i < n := by
    by_contra hge
    push_neg at hge
    have hall : ∀ y ∈ sorted.take (i + 1),
        (fun y => decide (x.score ≤ y.score)) y = true := by
      intro y hy
      obtain ⟨j, hj, hgj⟩ := List.getElem_of_mem hy
      have hj' : j < sorted.length := by
        simp only [List.length_take, lt_min_iff] at hj
        exact hj.2
      have hyv : y = sorted[j] := by
        rw [← hgj]; exact List.getElem_take _
      rcases Nat.lt_or_ge j i with hji | hji
      · have := (List.pairwise_iff_getElem.mp hsort) j i hj' hi hji
        subst hyv
        simp only [decide_eq_true_eq, ← hgi]
        exact this
      · have hj_eq : j = i := by
          have hj2 : j < i + 1 := by
            simp only [List.length_take, lt_min_iff] at hj
            exact hj.1
          omega
        subst hj_eq hyv
        simp [← hgi]
    have h1 : List.countP (fun y => decide (x.score ≤ y.score))
        (sorted.take (i + 1)) = i + 1 := by
      rw [List.countP_eq_length.mpr hall]
      have : i + 1 ≤ sorted.length := hi
      simp [List.length_take]
      omega
    have h2 : List.countP (fun y => decide (x.score ≤ y.score))
        (sorted.take (i + 1)) ≤
        List.countP (fun y => decide (x.score ≤ y.score)) sorted :=
      List.Sublist.countP_le _ (List.take_sublist _ _)
    have h3 : List.countP (fun y => decide (x.score ≤ y.score)) sorted =
        List.countP (fun y => decide (x.score ≤ y.score)) l :=
      hperm.countP_eq _
    omega
  refine List.mem_iff_getElem.mpr ⟨i, ?_, ?_⟩
  · simp [List.length_take]
    omega
  · rw [List.getElem_take]
    exact hgi

/-! Pool-level facts. -/

/-- Every record in the engine-variant pool has
`score = likelihoodScore * consequenceScore` (it was built by
`addToPool`). -/
lemma score_eq_of_mem_poolVariant {p : Profile} {ds : List String}
    {r : RiskRecord} (hr : r ∈ poolVariant p ds) :
    r.score = r.likelihoodScore * r.consequenceScore := by
  simp only [poolVariant, universalRisksVariant, List.mem_append,
    mem_iteSingleton, mem_iteTwo, List.mem_cons, List.not_mem_nil,
    or_false] at hr
  rcases hr with
    (((((((⟨_, rfl⟩|⟨_, rfl⟩)|⟨_, rfl⟩)|⟨_, rfl⟩)|(⟨_, rfl⟩|⟨_, rfl⟩))|
      ⟨_, rfl⟩)|⟨_, rfl⟩)|⟨_, rfl⟩)|
    rfl|rfl|rfl|rfl|rfl|rfl|rfl|rfl|rfl|rfl|rfl|
    rfl|rfl|rfl|rfl|rfl|rfl|rfl <;> rfl

/-- Every record in the `grcEngine.js` pool has
`score = likelihoodScore * consequenceScore`. -/
lemma score_eq_of_mem_poolGrc {p : Profile} {r : RiskRecord}
    (hr : r ∈ poolGrc p) :
    r.score = r.likelihoodScore * r.consequenceScore := by
  simp only [poolGrc, universalRisksGrc, List.mem_append,
    mem_iteSingleton, mem_iteTwo, List.mem_cons, List.not_mem_nil,
    or_false] at hr
  rcases hr with
    ((((((⟨_, rfl⟩|⟨_, rfl⟩)|(⟨_, rfl⟩|⟨_, rfl⟩))|⟨_, rfl⟩)|⟨_, rfl⟩)|
      ⟨_, rfl⟩)|⟨_, rfl⟩)|
    rfl|rfl|rfl|rfl|rfl|rfl <;> rfl

/-! Counting and length bounds used for the truncation arguments. -/

lemma countP_append_le₂ {α : Type} (pr : α → Bool) {l₁ l₂ : List α}
    {a b : Nat} (h₁ : List.countP pr l₁ ≤ a) (h₂ : List.countP pr l₂ ≤ b) :
    List.countP pr (l₁ ++ l₂) ≤ a + b := by
  rw [List.countP_append]; exact Nat.add_le_add h₁ h₂

lemma length_append_le₂ {α : Type} {l₁ l₂ : List α} {a b : Nat}
    (h₁ : l₁.length ≤ a) (h₂ : l₂.length ≤ b) :
    (l₁ ++ l₂).length ≤ a + b := by
  rw [List.length_append]; exact Nat.add_le_add h₁ h₂

lemma length_iteSingleton_le {α : Type} {c : Prop} [Decidable c] {x : α} :
    (if c then [x] else ([] : List α)).length ≤ 1 := by
  split <;> simp

lemma length_iteTwo_le {α : Type} {c : Prop} [Decidable c] {x y : α} :
    (if c then [x] else [y]).length ≤ 1 := by
  split <;> simp

/-- No universal risk of the engine variant reaches score 20 (their
scores are at most 16). -/
lemma countP20_universalVariant (p : Profile) :
    List.countP (fun y => decide (20 ≤ y.score))
      (universalRisksVariant p) = 0 := by
  unfold universalRisksVariant
  split_ifs <;> decide

/-- No universal risk of the engine variant reaches score 30. -/
lemma countP30_universalVariant (p : Profile) :
    List.countP (fun y => decide (30 ≤ y.score))
      (universalRisksVariant p) = 0 := by
  unfold universalRisksVariant
  split_ifs <;> decide

/-- If no universal record satisfies `pr`, at most the eight
conditional pushes can, so at most 8 pool records do. -/
lemma countP_poolVariant_le_eight (p : Profile) (ds : List String)
    (pr : RiskRecord → Bool)
    (hU : List.countP pr (universalRisksVariant p) = 0) :
    List.countP pr (poolVariant p ds) ≤ 8 := by
  unfold poolVariant
  exact le_trans
    (countP_append_le₂ pr
      (countP_append_le₂ pr
        (countP_append_le₂ pr
          (countP_append_le₂ pr
            (countP_append_le₂ pr
              (countP_append_le₂ pr
                (countP_append_le₂ pr
                  (countP_append_le₂ pr (countP_iteSingleton_le _ pr)
                    (countP_iteSingleton_le _ pr))
                  (countP_iteSingleton_le _ pr))
                (countP_iteSingleton_le _ pr))
              (countP_iteTwo_le _ _ pr))
            (countP_iteSingleton_le _ pr))
          (countP_iteSingleton_le _ pr))
        (countP_iteSingleton_le _ pr))
      (le_of_eq hU))
    (by norm_num)

/-- The `grcEngine.js` pool never exceeds 13 records (7 conditional
pushes at most plus 6 universal ones), so the top-15 truncation never
drops anything. -/
lemma length_poolGrc_le (p : Profile) : (poolGrc p).length ≤ 13 := by
  unfold poolGrc
  exact le_trans
    (length_append_le₂
      (length_append_le₂
        (length_append_le₂
          (length_append_le₂
            (length_append_le₂
              (length_append_le₂
                (length_append_le₂ length_iteSingleton_le
                  length_iteSingleton_le)
                length_iteTwo_le)
              length_iteSingleton_le)
            length_iteSingleton_le)
          length_iteSingleton_le)
        length_iteSingleton_le)
      (le_of_eq (by unfold universalRisksGrc; rfl)))
    (by norm_num)

/-! From pool membership to membership in the returned ranked list. -/

/-- The engine-variant builder, once `dataTypes` is present. -/
lemma generateBaseRisksVariant_eq (p : Profile) (ds : List String)
    (h : p.dataTypes = some ds) :
    generateBaseRisksVariant p =
      .ok (rankFrom 1 ((List.insertionSort byScoreDesc
        (withIdsFrom 1 (poolVariant p ds))).take 12)) := by
  unfold generateBaseRisksVariant
  rw [h]

/-- A pool record matched-or-beaten by at most 12 pool records (itself
included) is carried into the engine variant's returned top-12 list. -/
lemma ranked_of_mem_poolVariant {p : Profile} {ds : List String}
    {x : RiskRecord} (hx : x ∈ poolVariant p ds)
    (hcount : List.countP (fun y => decide (x.score ≤ y.score))
      (poolVariant p ds) ≤ 12) :
    ∃ r ∈ rankFrom 1 ((List.insertionSort byScoreDesc
        (withIdsFrom 1 (poolVariant p ds))).take 12),
      r.risk = x.risk ∧ r.likelihoodScore = x.likelihoodScore ∧
      r.consequenceScore = x.consequenceScore ∧ r.score = x.score := by
  obtain ⟨x', hx', hxe⟩ := mem_withIdsFrom_of_mem 1 hx
  have hfields : x'.risk = x.risk ∧ x'.likelihoodScore = x.likelihoodScore ∧
      x'.consequenceScore = x.consequenceScore ∧ x'.score = x.score := by
    rw [hxe]; exact ⟨rfl, rfl, rfl, rfl⟩
  have hcount' : List.countP (fun y => decide (x'.score ≤ y.score))
      (withIdsFrom 1 (poolVariant p ds)) ≤ 12 := by
    rw [countP_withIdsFrom (fun y => decide (x'.score ≤ y.score))
      (fun _ _ => rfl), hfields.2.2.2]
    exact hcount
  have hmem : x' ∈ (List.insertionSort byScoreDesc
      (withIdsFrom 1 (poolVariant p ds))).take 12 :=
    mem_take_of_countP_le (List.perm_insertionSort _ _)
      (List.sorted_insertionSort _ _) hx' hcount'
  obtain ⟨r, hr, h1, h2, h3, h4⟩ := mem_rankFrom_of_mem 1 hmem
  exact ⟨r, hr, h1.trans hfields.1, h2.trans hfields.2.1,
    h3.trans hfields.2.2.1, h4.trans hfields.2.2.2⟩

/-- Every `grcEngine.js` pool record is carried into the returned list
(the pool is smaller than the truncation size). -/
lemma ranked_of_mem_poolGrc {p : Profile} {x : RiskRecord}
    (hx : x ∈ poolGrc p) :
    ∃ r ∈ generateBaseRisksGrc p,
      r.risk = x.risk ∧ r.likelihoodScore = x.likelihoodScore ∧
      r.consequenceScore = x.consequenceScore ∧ r.score = x.score := by
  obtain ⟨x', hx', hxe⟩ := mem_withIdsFrom_of_mem 1 hx
  have hfields : x'.risk = x.risk ∧ x'.likelihoodScore = x.likelihoodScore ∧
      x'.consequenceScore = x.consequenceScore ∧ x'.score = x.score := by
    rw [hxe]; exact ⟨rfl, rfl, rfl, rfl⟩
  have hlen : (List.insertionSort byScoreDesc
      (withIdsFrom 1 (poolGrc p))).length ≤ 15 := by
    rw [List.length_insertionSort, length_withIdsFrom]
    exact le_trans (length_poolGrc_le p) (by norm_num)
  have hmem : x' ∈ (List.insertionSort byScoreDesc
      (withIdsFrom 1 (poolGrc p))).take 15 := by
    rw [List.take_of_length_le hlen]
    exact (List.perm_insertionSort _ _).mem_iff.mpr hx'
  obtain ⟨r, hr, h1, h2, h3, h4⟩ := mem_rankFrom_of_mem 1 hmem
  exact ⟨r, hr, h1.trans hfields.1, h2.trans hfields.2.1,
    h3.trans hfields.2.2.1, h4.trans hfields.2.2.2⟩

/-! Membership of the scenario-B records in the pools. -/

lemma ransomVariant_mem_pool (p : Profile) (ds : List String)
    (hback : p.backupFrequency = some "none") :
    addedRisk getRiskLevelVariant "Ransomware Attack with Data Loss" 5 6
      "Implement Backup Strategy, Offline Backups, Incident Response Plan" ∈
      poolVariant p ds := by
  unfold poolVariant
  rw [if_pos hback]
  simp [List.mem_append]

lemma credVariant_mem_pool (p : Profile) (ds : List String)
    (hmfa : p.mfa ≠ some "mandatory") :
    addedRisk getRiskLevelVariant "Credential Stuffing / Brute Force" 5 4
      "Mandatory MFA, Strong Password Policies, Account Lockout" ∈
      poolVariant p ds := by
  unfold poolVariant
  rw [if_pos hmfa]
  simp [List.mem_append]

lemma ransomGrc_mem_pool (p : Profile)
    (hback : p.backupFrequency = some "none") :
    addedRisk getRiskLevelGrc "Ransomware Data Loss" 5 6
      "Implement 3-2-1 Backup Strategy immediately" ∈ poolGrc p := by
  unfold poolGrc
  rw [if_pos hback]
  simp [List.mem_append]

lemma credGrc_mem_pool (p : Profile) (hmfa : p.mfa = some "none") :
    addedRisk getRiskLevelGrc "Credential Reuse / Brute Force" 5 4
      "Implement MFA for all accesses" ∈ poolGrc p := by
  unfold poolGrc
  rw [if_pos hmfa]
  simp [List.mem_append]

/-- Following a returned ranked record back to its pool source. -/
lemma ranked_field_source {l : List RiskRecord} {N : Nat} {r : RankedRisk}
    (hr : r ∈ rankFrom 1 ((List.insertionSort byScoreDesc
      (withIdsFrom 1 l)).take N)) :
    ∃ x ∈ l, r.risk = x.risk ∧ r.likelihoodScore = x.likelihoodScore ∧
      r.consequenceScore = x.consequenceScore ∧ r.score = x.score := by
  obtain ⟨rr, hrr, h1, h2, h3, h4⟩ := mem_of_mem_rankFrom hr
  have hrr2 : rr ∈ List.insertionSort byScoreDesc (withIdsFrom 1 l) :=
    (List.take_sublist _ _).mem hrr
  have hrr3 : rr ∈ withIdsFrom 1 l :=
    (List.perm_insertionSort _ _).mem_iff.mp hrr2
  obtain ⟨x, hx, he⟩ := mem_of_mem_withIdsFrom hrr3
  refine ⟨x, hx, h1.trans (by rw [he]), h2.trans (by rw [he]),
    h3.trans (by rw [he]), h4.trans (by rw [he])⟩

/-! String non-emptiness of the deterministic fallback texts. -/

lemma generateFallbackSummary_ne_empty (p : Profile) (m : MaturityResult)
    (g : List Gap) : generateFallbackSummary p m g ≠ "" := by
  intro h
  have hl := congrArg String.length h
  simp only [generateFallbackSummary, String.length_append] at hl
  have h1 : ("# Executive Summary for ").length = 24 := rfl
  have h2 : ("" : String).length = 0 := rfl
  omega

lemma generateFallbackComplianceRoadmap_ne_empty (p : Profile) :
    generateFallbackComplianceRoadmap p ≠ "" := by
  intro h
  have hl := congrArg String.length h
  simp only [generateFallbackComplianceRoadmap, String.length_append] at hl
  have h1 :
      ("# Compliance Roadmap\n\nFocus on standard frameworks relevant to ").length
        = 63 := rfl
  have h2 : ("" : String).length = 0 := rfl
  omega

/-! Statement-level predicates used by the claims. -/

/-- Invariant of a returned ranked risk list: its length is
`min N poolSize`, its ids are exactly the consecutive integers
`1..length` (in order), and it is ordered by non-increasing `score`. -/
def rankedInvariant (N poolLen : Nat) (out : List RankedRisk) : Prop :=
  out.length = min N poolLen ∧
  out.map RankedRisk.id = List.range' 1 out.length ∧
  out.Pairwise (fun a b => b.score ≤ a.score)

/-- The pool contains a record with the given name, ordinals and
composite score. -/
def poolHasRisk (l : List RiskRecord) (name : String) (lk c s : Nat) :
    Prop :=
  ∃ r ∈ l, r.risk = name ∧ r.likelihoodScore = lk ∧
    r.consequenceScore = c ∧ r.score = s

/-- The returned ranked list contains a record with the given name,
ordinals and composite score. -/
def outHasRisk (l : List RankedRisk) (name : String) (lk c s : Nat) :
    Prop :=
  ∃ r ∈ l, r.risk = name ∧ r.likelihoodScore = lk ∧
    r.consequenceScore = c ∧ r.score = s

/-- Weighted sum of the rounded dimension fields of a result. -/
def weightedSumMilliOf (m : MaturityResult) (dims : Dimensions) : Int :=
  m.governance * wMilli dims.governance +
  m.risk * wMilli dims.risk +
  m.compliance * wMilli dims.compliance +
  m.technical * wMilli dims.technical +
  m.application * wMilli dims.application +
  m.operational * wMilli dims.operational

/-- Re-aggregation of the already-rounded dimension fields of the
result with the same weights and penalties (the C1 recomputation). -/
def recomputedOverallMilli (p : Profile) : Int :=
  weightedSumMilliOf (calculateMaturityScore p)
    (configFor INDUSTRY_WEIGHTS p.industry).dimensions -
  (if p.mfa = some "none" then 5000 else 0) -
  (if p.backupFrequency = some "none" then 5000 else 0)

/-- The main invariant behind `rankedInvariant`: what the shared
select-sort-renumber tail produces for any pool. -/
lemma rankedInvariant_of (N : Nat) (l : List RiskRecord) :
    rankedInvariant N l.length
      (rankFrom 1 ((List.insertionSort byScoreDesc
        (withIdsFrom 1 l)).take N)) := by
  refine ⟨?_, ?_, ?_⟩
  · rw [length_rankFrom, List.length_take, List.length_insertionSort,
      length_withIdsFrom]
  · rw [map_id_rankFrom, length_rankFrom]
  · exact pairwise_rankFrom
      (List.Pairwise.sublist (List.take_sublist _ _)
        (List.sorted_insertionSort _ _))

/-! Dimension-scorer range lemmas. -/

lemma calculateGovernanceScore_range (p : Profile) :
    0 ≤ calculateGovernanceScore p ∧ calculateGovernanceScore p ≤ 100 := by
  unfold calculateGovernanceScore
  exact ⟨clamp_nonneg _, clamp_le_100 _⟩

lemma calculateRiskScore_range (p : Profile) :
    0 ≤ calculateRiskScore p ∧ calculateRiskScore p ≤ 100 := by
  unfold calculateRiskScore
  exact ⟨clamp_nonneg _, clamp_le_100 _⟩

lemma calculateComplianceScore_range (p : Profile) :
    0 ≤ calculateComplianceScore p ∧ calculateComplianceScore p ≤ 100 := by
  unfold calculateComplianceScore
  exact ⟨clamp_nonneg _, clamp_le_100 _⟩

lemma calculateTechnicalScore_range (p : Profile) :
    0 ≤ calculateTechnicalScore p ∧ calculateTechnicalScore p ≤ 100 := by
  unfold calculateTechnicalScore
  exact ⟨clamp_nonneg _, clamp_le_100 _⟩

lemma calculateApplicationScore_range (p : Profile) :
    0 ≤ calculateApplicationScore p ∧ calculateApplicationScore p ≤ 100 := by
  unfold calculateApplicationScore
  exact ⟨clamp_nonneg _, clamp_le_100 _⟩

lemma calculateOperationalScore_range (p : Profile) :
    0 ≤ calculateOperationalScore p ∧ calculateOperationalScore p ≤ 100 := by
  unfold calculateOperationalScore
  exact ⟨clamp_nonneg _, clamp_le_100 _⟩

/-! Concrete inputs used by the claims and their witnesses. -/

/-- A profile firing exactly the governance gap rule (High) and the MFA
gap rule (Critical), in that declaration order. -/
def gapOrderProfile : Profile :=
  { emptyProfile with
      mfa := some "none"
      backupFrequency := some "daily"
      bcpDocumented := some "yes"
      vulnerabilityScanning := some "regular"
      encryption := some "yes"
      incidentResponsePlan := some "yes"
      securityTraining := some "regular" }

/-- Dimension scores with a weak governance score, passed alongside
`gapOrderProfile`. -/
def gapOrderScores : MaturityResult :=
  { overall := 50, governance := 50, risk := 50, compliance := 50,
    technical := 50, application := 50, operational := 50,
    labels := maturityLabels }

/-- Scenario-B profile: no MFA, no backups, remote work, cloud hosting,
`dataTypes` present (an empty list). -/
def scenarioBProfile : Profile :=
  { emptyProfile with
      mfa := some "none"
      backupFrequency := some "none"
      remote := some "yes"
      hosting := some "cloud"
      dataTypes := some [] }

/-- The list returned by the engine-variant builder on the scenario-B
profile. -/
def scenarioBOut : List RankedRisk :=
  (generateBaseRisksVariant scenarioBProfile).toOption.getD []

/-- A profile whose industry is not a key of the weight table. -/
def unknownIndustryProfile : Profile :=
  { emptyProfile with industry := some "retail" }

/-- A profile whose industry is an inherited `Object.prototype`
property name (not an own key of the weight table). -/
def protoIndustryProfile : Profile :=
  { emptyProfile with industry := some "toString" }

/-- An AI collaborator all four of whose calls always fail. -/
def failingAI : AICollaborator :=
  { generateExecutiveSummary := fun _ _ => .error "AI generation failed"
    generateRecommendations := fun _ _ _ => .error "AI generation failed"
    generateComplianceRoadmap := fun _ => .error "AI generation failed"
    quantifyRisks := fun _ _ => .error "AI generation failed" }

/-! The claims. -/

/-- C1: for every profile, the `overall` field of
`calculateMaturityScore` equals the weighted sum of the six dimension
scores by the selected industry weights, minus 5 when `mfa` is `none`
and minus 5 when `backupFrequency` is `none`, clamped to [0,100] and
rounded (computed exactly at the thousandth scale); and recomputing the
same aggregate from the independently rounded dimension fields of the
result agrees with `overall` within a tolerance of 1 (here: exactly,
because the dimension scores are already integers). -/
theorem claim_C1_weighted_overall (p : Profile) :
    (calculateMaturityScore p).overall =
      roundMilli (clampMilli (rawOverallMilli
        (configFor INDUSTRY_WEIGHTS p.industry).dimensions p)) ∧
    ((calculateMaturityScore p).overall -
      roundMilli (clampMilli (recomputedOverallMilli p))).natAbs ≤ 1 := by
  constructor
  · rfl
  · have h : recomputedOverallMilli p =
        rawOverallMilli (configFor INDUSTRY_WEIGHTS p.industry).dimensions
          p := rfl
    have h2 : (calculateMaturityScore p).overall =
        roundMilli (clampMilli (rawOverallMilli
          (configFor INDUSTRY_WEIGHTS p.industry).dimensions p)) := rfl
    rw [h, h2, sub_self]
    simp

/-- C2: for every profile, each of the six dimension scores and the
`overall` score returned by `calculateMaturityScore` lies in [0,100]. -/
theorem claim_C2_scores_in_range (p : Profile) :
    (0 ≤ (calculateMaturityScore p).governance ∧
      (calculateMaturityScore p).governance ≤ 100) ∧
    (0 ≤ (calculateMaturityScore p).risk ∧
      (calculateMaturityScore p).risk ≤ 100) ∧
    (0 ≤ (calculateMaturityScore p).compliance ∧
      (calculateMaturityScore p).compliance ≤ 100) ∧
    (0 ≤ (calculateMaturityScore p).technical ∧
      (calculateMaturityScore p).technical ≤ 100) ∧
    (0 ≤ (calculateMaturityScore p).application ∧
      (calculateMaturityScore p).application ≤ 100) ∧
    (0 ≤ (calculateMaturityScore p).operational ∧
      (calculateMaturityScore p).operational ≤ 100) ∧
    (0 ≤ (calculateMaturityScore p).overall ∧
      (calculateMaturityScore p).overall ≤ 100) := by
  refine ⟨calculateGovernanceScore_range p, calculateRiskScore_range p,
    calculateComplianceScore_range p, calculateTechnicalScore_range p,
    calculateApplicationScore_range p, calculateOperationalScore_range p,
    ?_, ?_⟩
  · exact roundMilli_nonneg (clampMilli_nonneg _)
  · exact roundMilli_le_100 (clampMilli_le _)

/-- On every completing run the full-lookup model agrees with the
total selection model `calculateMaturityScore`. -/
lemma calcChecked_ok_agrees (p : Profile) {m : MaturityResult}
    (h : calculateMaturityScoreChecked p = Except.ok m) :
    calculateMaturityScore p = m := by
  unfold calculateMaturityScoreChecked calcChecked industryLookup
    tableLookup at h
  unfold calculateMaturityScore calcWith configFor
  cases hi : p.industry with
  | none =>
    rw [hi] at h
    have h2 : Except.ok (calcWithDims INDUSTRY_WEIGHTS.default.dimensions p)
        = Except.ok m := h
    exact Except.ok.inj h2
  | some k =>
    rw [hi] at h
    simp only [Option.getD_some] at h
    simp only [Option.some.injEq]
    split_ifs at h ⊢ <;> exact Except.ok.inj h

/-- C8 counterexample: `toString` is not a recognized key of the
industry weight table, yet `calculateMaturityScore` neither falls back
to the uniform default weights nor returns normally: the bracket
lookup finds the inherited `Object.prototype.toString` member, the
truthiness test passes, `config.dimensions` is `undefined`, and the
read `dims.governance` throws a `TypeError`, refuting the claim as
stated. -/
theorem claim_C8_counterexample :
    protoIndustryProfile.industry ≠ some "fintech" ∧
    protoIndustryProfile.industry ≠ some "healthcare" ∧
    protoIndustryProfile.industry ≠ some "saas" ∧
    protoIndustryProfile.industry ≠ some "default" ∧
    calculateMaturityScoreChecked protoIndustryProfile =
      Except.error () :=
  ⟨by decide, by decide, by decide, by decide, rfl⟩

/-- C8 amended: for every profile whose `industry` is neither a
recognized key of the industry weight table nor an inherited
`Object.prototype` property name, `calculateMaturityScore` uses the
uniform default weight profile (weight 0.166, i.e. 166 thousandths,
per dimension) and returns normally; when the industry names an
inherited `Object.prototype` member the function instead throws a
`TypeError` at the `dims.governance` read. -/
theorem claim_C8_amended_unknown_industry (p : Profile)
    (h1 : p.industry ≠ some "fintech")
    (h2 : p.industry ≠ some "healthcare")
    (h3 : p.industry ≠ some "saas")
    (h4 : p.industry ≠ some "default")
    (h5 : p.industry.getD "undefined" ∉ OBJECT_PROTOTYPE_KEYS) :
    calculateMaturityScoreChecked p =
      Except.ok (calcWithDims INDUSTRY_WEIGHTS.default.dimensions p) ∧
    calculateMaturityScore p =
      calcWithDims INDUSTRY_WEIGHTS.default.dimensions p ∧
    wMilli INDUSTRY_WEIGHTS.default.dimensions.governance = 166 ∧
    wMilli INDUSTRY_WEIGHTS.default.dimensions.risk = 166 ∧
    wMilli INDUSTRY_WEIGHTS.default.dimensions.compliance = 166 ∧
    wMilli INDUSTRY_WEIGHTS.default.dimensions.technical = 166 ∧
    wMilli INDUSTRY_WEIGHTS.default.dimensions.application = 166 ∧
    wMilli INDUSTRY_WEIGHTS.default.dimensions.operational = 166 := by
  have hk : industryLookup INDUSTRY_WEIGHTS p.industry = .absent := by
    unfold industryLookup tableLookup
    cases hi : p.industry with
    | none => rfl
    | some k =>
      have hk1 : k ≠ "fintech" := by
        intro he; subst he; exact h1 hi
      have hk2 : k ≠ "healthcare" := by
        intro he; subst he; exact h2 hi
      have hk3 : k ≠ "saas" := by
        intro he; subst he; exact h3 hi
      have hk4 : k ≠ "default" := by
        intro he; subst he; exact h4 hi
      have hk5 : k ∉ OBJECT_PROTOTYPE_KEYS := by
        rw [hi] at h5
        simpa using h5
      simp only [Option.getD_some]
      rw [if_neg hk1, if_neg hk2, if_neg hk3, if_neg hk4, if_neg hk5]
  have hc : configFor INDUSTRY_WEIGHTS p.industry =
      INDUSTRY_WEIGHTS.default := by
    unfold configFor
    rw [if_neg h1, if_neg h2, if_neg h3, if_neg h4]
  refine ⟨?_, ?_, rfl, rfl, rfl, rfl, rfl, rfl⟩
  · unfold calculateMaturityScoreChecked calcChecked
    rw [hk]
  · unfold calculateMaturityScore calcWith
    rw [hc]

/-- C8 witness: a concrete unrecognized, non-prototype industry. -/
theorem claim_C8_amended_unknown_industry_witness :
    unknownIndustryProfile.industry ≠ some "fintech" ∧
    unknownIndustryProfile.industry ≠ some "healthcare" ∧
    unknownIndustryProfile.industry ≠ some "saas" ∧
    unknownIndustryProfile.industry ≠ some "default" ∧
    unknownIndustryProfile.industry.getD "undefined" ∉
      OBJECT_PROTOTYPE_KEYS ∧
    (calculateMaturityScoreChecked unknownIndustryProfile =
        Except.ok (calcWithDims INDUSTRY_WEIGHTS.default.dimensions
          unknownIndustryProfile) ∧
      calculateMaturityScore unknownIndustryProfile =
        calcWithDims INDUSTRY_WEIGHTS.default.dimensions
          unknownIndustryProfile ∧
      wMilli INDUSTRY_WEIGHTS.default.dimensions.governance = 166 ∧
      wMilli INDUSTRY_WEIGHTS.default.dimensions.risk = 166 ∧
      wMilli INDUSTRY_WEIGHTS.default.dimensions.compliance = 166 ∧
      wMilli INDUSTRY_WEIGHTS.default.dimensions.technical = 166 ∧
      wMilli INDUSTRY_WEIGHTS.default.dimensions.application = 166 ∧
      wMilli INDUSTRY_WEIGHTS.default.dimensions.operational = 166) :=
  ⟨by decide, by decide, by decide, by decide, by decide,
    claim_C8_amended_unknown_industry unknownIndustryProfile
      (by decide) (by decide) (by decide) (by decide) (by decide)⟩

/-- C9: for every profile and maturity result, `identifyGaps` returns
exactly the gaps of the rules whose guards fired, in the fixed
declaration order of the nine rules, never reordered by severity; in
particular, on `gapOrderProfile`/`gapOrderScores` the returned list is a
High-severity gap followed by a Critical-severity gap. -/
theorem claim_C9_gap_declaration_order :
    (∀ (p : Profile) (s : MaturityResult),
      identifyGaps p s = firedGaps p s gapRules) ∧
    (identifyGaps gapOrderProfile gapOrderScores).map Gap.severity =
      ["High", "Critical"] := by
  constructor
  · intro p s
    rw [← flatten_segments_eq_firedGaps p s gapRules]
    simp only [identifyGaps, gapRules, List.map_cons, List.map_nil,
      List.flatten_cons, List.flatten_nil, decide_eq_true_eq,
      List.append_assoc, List.append_nil]
  · rfl

/-- C10: the per-industry `penalties` and `bonuses` tables of
`INDUSTRY_WEIGHTS` hold exactly the declared constants but are never
read by the scoring computation: two weight tables that agree on the
`dimensions` entries produce identical maturity results whatever their
penalty/bonus tables hold, and the only global adjustments applied to
the overall score are the fixed −5 for `mfa = 'none'` and −5 for
`backupFrequency = 'none'` (5000 thousandths each), identically for
every industry. -/
theorem claim_C10_penalty_tables_unused (t t' : IndustryTable)
    (p : Profile)
    (hf : t.fintech.dimensions = t'.fintech.dimensions)
    (hh : t.healthcare.dimensions = t'.healthcare.dimensions)
    (hs : t.saas.dimensions = t'.saas.dimensions)
    (hd : t.default.dimensions = t'.default.dimensions) :
    calcWith t p = calcWith t' p ∧
    INDUSTRY_WEIGHTS.fintech.penalties =
      [("no_mfa", -25), ("no_encryption", -25),
       ("no_incident_response", -20)] ∧
    INDUSTRY_WEIGHTS.fintech.bonuses = [("cert_exists", 10)] ∧
    INDUSTRY_WEIGHTS.default.penalties =
      [("no_mfa", -20), ("no_backup", -20)] ∧
    (calcWith t p).overall = roundMilli (clampMilli
      (weightedSumMilli (configFor t p.industry).dimensions p -
        (if p.mfa = some "none" then 5000 else 0) -
        (if p.backupFrequency = some "none" then 5000 else 0))) := by
  have hdims : (configFor t p.industry).dimensions =
      (configFor t' p.industry).dimensions := by
    unfold configFor
    split_ifs <;> assumption
  refine ⟨?_, rfl, rfl, rfl, rfl⟩
  unfold calcWith
  rw [hdims]

/-- C10 witness: instantiated at the actual weight table and the empty
profile. -/
theorem claim_C10_penalty_tables_unused_witness :
    INDUSTRY_WEIGHTS.fintech.dimensions =
      INDUSTRY_WEIGHTS.fintech.dimensions ∧
    (calcWith INDUSTRY_WEIGHTS emptyProfile =
        calcWith INDUSTRY_WEIGHTS emptyProfile ∧
      INDUSTRY_WEIGHTS.fintech.penalties =
        [("no_mfa", -25), ("no_encryption", -25),
         ("no_incident_response", -20)] ∧
      INDUSTRY_WEIGHTS.fintech.bonuses = [("cert_exists", 10)] ∧
      INDUSTRY_WEIGHTS.default.penalties =
        [("no_mfa", -20), ("no_backup", -20)] ∧
      (calcWith INDUSTRY_WEIGHTS emptyProfile).overall =
        roundMilli (clampMilli
          (weightedSumMilli
            (configFor INDUSTRY_WEIGHTS emptyProfile.industry).dimensions
            emptyProfile -
          (if emptyProfile.mfa = some "none" then 5000 else 0) -
          (if emptyProfile.backupFrequency = some "none" then 5000
           else 0)))) :=
  ⟨rfl, claim_C10_penalty_tables_unused INDUSTRY_WEIGHTS INDUSTRY_WEIGHTS
    emptyProfile rfl rfl rfl rfl⟩

/-- A profile whose only defined field is `dataTypes` (present, empty). -/
def listOnlyProfile : Profile := { emptyProfile with dataTypes := some [] }

/-- C3: whenever the engine-variant builder returns a list, that list
has length `min 12 poolSize`, carries the consecutive ids `1..length`
in order, and is ordered by non-increasing score; the `grcEngine.js`
builder's list likewise satisfies the invariant with its truncation
constant 15. -/
theorem claim_C3_truncation_invariant (p : Profile) (ds : List String)
    (out : List RankedRisk) (hds : p.dataTypes = some ds)
    (hout : generateBaseRisksVariant p = Except.ok out) :
    rankedInvariant 12 (poolVariant p ds).length out ∧
    rankedInvariant 15 (poolGrc p).length (generateBaseRisksGrc p) := by
  have he := generateBaseRisksVariant_eq p ds hds
  rw [hout] at he
  have hoeq : out = rankFrom 1 ((List.insertionSort byScoreDesc
      (withIdsFrom 1 (poolVariant p ds))).take 12) := by
    injection he
  subst hoeq
  exact ⟨rankedInvariant_of 12 (poolVariant p ds),
    rankedInvariant_of 15 (poolGrc p)⟩

/-- C3 witness: the scenario-B profile, with the concrete returned
list. -/
theorem claim_C3_truncation_invariant_witness :
    scenarioBProfile.dataTypes = some [] ∧
    generateBaseRisksVariant scenarioBProfile = Except.ok scenarioBOut ∧
    (rankedInvariant 12 (poolVariant scenarioBProfile []).length
        scenarioBOut ∧
      rankedInvariant 15 (poolGrc scenarioBProfile).length
        (generateBaseRisksGrc scenarioBProfile)) :=
  ⟨rfl, rfl,
    claim_C3_truncation_invariant scenarioBProfile [] scenarioBOut rfl rfl⟩

/-- C4: every risk record in either builder's pool and in either
builder's returned list satisfies
`score = likelihoodScore * consequenceScore`; the composite score is
never set independently of its two ordinal components. -/
theorem claim_C4_score_is_product (p : Profile) (ds : List String)
    (out : List RankedRisk) (hds : p.dataTypes = some ds)
    (hout : generateBaseRisksVariant p = Except.ok out) :
    (∀ r ∈ poolVariant p ds,
      r.score = r.likelihoodScore * r.consequenceScore) ∧
    (∀ r ∈ out, r.score = r.likelihoodScore * r.consequenceScore) ∧
    (∀ r ∈ poolGrc p,
      r.score = r.likelihoodScore * r.consequenceScore) ∧
    (∀ r ∈ generateBaseRisksGrc p,
      r.score = r.likelihoodScore * r.consequenceScore) := by
  have he := generateBaseRisksVariant_eq p ds hds
  rw [hout] at he
  have hoeq : out = rankFrom 1 ((List.insertionSort byScoreDesc
      (withIdsFrom 1 (poolVariant p ds))).take 12) := by
    injection he
  subst hoeq
  refine ⟨fun r hr => score_eq_of_mem_poolVariant hr, ?_,
    fun r hr => score_eq_of_mem_poolGrc hr, ?_⟩
  · intro r hr
    obtain ⟨x, hx, _, h2, h3, h4⟩ := ranked_field_source hr
    rw [h2, h3, h4]
    exact score_eq_of_mem_poolVariant hx
  · intro r hr
    have hr' : r ∈ rankFrom 1 ((List.insertionSort byScoreDesc
        (withIdsFrom 1 (poolGrc p))).take 15) := hr
    obtain ⟨x, hx, _, h2, h3, h4⟩ := ranked_field_source hr'
    rw [h2, h3, h4]
    exact score_eq_of_mem_poolGrc hx

/-- C4 witness: the scenario-B profile, with the concrete returned
list. -/
theorem claim_C4_score_is_product_witness :
    scenarioBProfile.dataTypes = some [] ∧
    generateBaseRisksVariant scenarioBProfile = Except.ok scenarioBOut ∧
    ((∀ r ∈ poolVariant scenarioBProfile [],
        r.score = r.likelihoodScore * r.consequenceScore) ∧
      (∀ r ∈ scenarioBOut,
        r.score = r.likelihoodScore * r.consequenceScore) ∧
      (∀ r ∈ poolGrc scenarioBProfile,
        r.score = r.likelihoodScore * r.consequenceScore) ∧
      (∀ r ∈ generateBaseRisksGrc scenarioBProfile,
        r.score = r.likelihoodScore * r.consequenceScore)) :=
  ⟨rfl, rfl,
    claim_C4_score_is_product scenarioBProfile [] scenarioBOut rfl rfl⟩

/-- C5 counterexample: on a profile whose `dataTypes` is undefined the
engine-variant builder does not return a list — the sensitive-data
guard dereferences `profile.dataTypes` (`profile.dataTypes.includes`)
and throws, refuting the claim that the builder never throws on
missing list fields. -/
theorem claim_C5_counterexample :
    generateBaseRisksVariant emptyProfile = Except.error () := rfl

/-- C5 amended: the builder never throws provided `dataTypes` is
present; every guard over a missing scalar field is evaluated safely
(here with every other field undefined the call still returns a list),
but a missing `dataTypes` list makes the sensitive-data membership
guard throw rather than take the failing branch. -/
theorem claim_C5_amended_no_throw (p : Profile) (ds : List String)
    (hds : p.dataTypes = some ds) :
    ∃ out, generateBaseRisksVariant p = Except.ok out :=
  ⟨_, generateBaseRisksVariant_eq p ds hds⟩

/-- C5 witness: all scalar fields undefined, `dataTypes` present. -/
theorem claim_C5_amended_no_throw_witness :
    listOnlyProfile.dataTypes = some [] ∧
    ∃ out, generateBaseRisksVariant listOnlyProfile = Except.ok out :=
  ⟨rfl, claim_C5_amended_no_throw listOnlyProfile [] rfl⟩

/-- C6: for any profile with `mfa='none'`, `backupFrequency='none'`,
`remote='yes'`, `hosting='cloud'` (and `dataTypes` present, so the
engine variant returns), both builders' pools contain their
ransomware-data-loss record (likelihood 5, consequence 6, score 30) and
their credential-stuffing/brute-force record (likelihood 5,
consequence 4, score 20), and both records survive the top-N
truncation into the returned list of each builder. -/
theorem claim_C6_scenarioB (p : Profile) (ds : List String)
    (out : List RankedRisk)
    (hds : p.dataTypes = some ds)
    (hmfa : p.mfa = some "none")
    (hback : p.backupFrequency = some "none")
    (_hrem : p.remote = some "yes")
    (_hhost : p.hosting = some "cloud")
    (hout : generateBaseRisksVariant p = Except.ok out) :
    poolHasRisk (poolVariant p ds)
      "Ransomware Attack with Data Loss" 5 6 30 ∧
    outHasRisk out "Ransomware Attack with Data Loss" 5 6 30 ∧
    poolHasRisk (poolVariant p ds)
      "Credential Stuffing / Brute Force" 5 4 20 ∧
    outHasRisk out "Credential Stuffing / Brute Force" 5 4 20 ∧
    poolHasRisk (poolGrc p) "Ransomware Data Loss" 5 6 30 ∧
    outHasRisk (generateBaseRisksGrc p) "Ransomware Data Loss" 5 6 30 ∧
    poolHasRisk (poolGrc p) "Credential Reuse / Brute Force" 5 4 20 ∧
    outHasRisk (generateBaseRisksGrc p)
      "Credential Reuse / Brute Force" 5 4 20 := by
  have hmfa' : p.mfa ≠ some "mandatory" := by rw [hmfa]; simp
  have he := generateBaseRisksVariant_eq p ds hds
  rw [hout] at he
  have hoeq : out = rankFrom 1 ((List.insertionSort byScoreDesc
      (withIdsFrom 1 (poolVariant p ds))).take 12) := by
    injection he
  subst hoeq
  have hr1 := ransomVariant_mem_pool p ds hback
  have hc1 := credVariant_mem_pool p ds hmfa'
  have h30 : List.countP (fun y => decide (30 ≤ y.score))
      (poolVariant p ds) ≤ 12 :=
    le_trans (countP_poolVariant_le_eight p ds _
      (countP30_universalVariant p)) (by norm_num)
  have h20 : List.countP (fun y => decide (20 ≤ y.score))
      (poolVariant p ds) ≤ 12 :=
    le_trans (countP_poolVariant_le_eight p ds _
      (countP20_universalVariant p)) (by norm_num)
  obtain ⟨r1, hr1o, e11, e12, e13, e14⟩ :=
    ranked_of_mem_poolVariant hr1 h30
  obtain ⟨r2, hr2o, e21, e22, e23, e24⟩ :=
    ranked_of_mem_poolVariant hc1 h20
  have hg1 := ransomGrc_mem_pool p hback
  have hg2 := credGrc_mem_pool p hmfa
  obtain ⟨r3, hr3o, e31, e32, e33, e34⟩ := ranked_of_mem_poolGrc hg1
  obtain ⟨r4, hr4o, e41, e42, e43, e44⟩ := ranked_of_mem_poolGrc hg2
  exact ⟨⟨_, hr1, rfl, rfl, rfl, rfl⟩,
    ⟨r1, hr1o, e11, e12, e13, e14⟩,
    ⟨_, hc1, rfl, rfl, rfl, rfl⟩,
    ⟨r2, hr2o, e21, e22, e23, e24⟩,
    ⟨_, hg1, rfl, rfl, rfl, rfl⟩,
    ⟨r3, hr3o, e31, e32, e33, e34⟩,
    ⟨_, hg2, rfl, rfl, rfl, rfl⟩,
    ⟨r4, hr4o, e41, e42, e43, e44⟩⟩

/-- C6 witness: the concrete scenario-B profile. -/
theorem claim_C6_scenarioB_witness :
    scenarioBProfile.dataTypes = some [] ∧
    scenarioBProfile.mfa = some "none" ∧
    scenarioBProfile.backupFrequency = some "none" ∧
    scenarioBProfile.remote = some "yes" ∧
    scenarioBProfile.hosting = some "cloud" ∧
    generateBaseRisksVariant scenarioBProfile = Except.ok scenarioBOut ∧
    (poolHasRisk (poolVariant scenarioBProfile [])
        "Ransomware Attack with Data Loss" 5 6 30 ∧
      outHasRisk scenarioBOut "Ransomware Attack with Data Loss" 5 6 30 ∧
      poolHasRisk (poolVariant scenarioBProfile [])
        "Credential Stuffing / Brute Force" 5 4 20 ∧
      outHasRisk scenarioBOut "Credential Stuffing / Brute Force" 5 4 20 ∧
      poolHasRisk (poolGrc scenarioBProfile)
        "Ransomware Data Loss" 5 6 30 ∧
      outHasRisk (generateBaseRisksGrc scenarioBProfile)
        "Ransomware Data Loss" 5 6 30 ∧
      poolHasRisk (poolGrc scenarioBProfile)
        "Credential Reuse / Brute Force" 5 4 20 ∧
      outHasRisk (generateBaseRisksGrc scenarioBProfile)
        "Credential Reuse / Brute Force" 5 4 20) :=
  ⟨rfl, rfl, rfl, rfl, rfl, rfl,
    claim_C6_scenarioB scenarioBProfile [] scenarioBOut
      rfl rfl rfl rfl rfl rfl⟩

/-- C7: when all four AI-collaborator calls fail, `generateReport`
still returns a report whose executive summary is non-empty, whose
recommendations field is the (defined, possibly empty) fallback list,
whose compliance roadmap is non-empty, and whose risks are exactly the
deterministically computed base-risk list, unaffected by the
failures. -/
theorem claim_C7_fallback_guarantee {β : Type} (ai : AICollaborator)
    (getBenchmarkComparison : Profile → Int → β) (p : Profile)
    (h1 : ∀ q m, ∃ e, ai.generateExecutiveSummary q m = .error e)
    (h2 : ∀ q g m, ∃ e, ai.generateRecommendations q g m = .error e)
    (h3 : ∀ q, ∃ e, ai.generateComplianceRoadmap q = .error e)
    (h4 : ∀ q r, ∃ e, ai.quantifyRisks q r = .error e) :
    (generateReport ai getBenchmarkComparison p).executiveSummary ≠ "" ∧
    (generateReport ai getBenchmarkComparison p).recommendations =
      generateFallbackRecommendations
        (identifyGaps p (calculateMaturityScore p)) ∧
    (generateReport ai getBenchmarkComparison p).complianceRoadmap ≠ "" ∧
    (generateReport ai getBenchmarkComparison p).risks =
      generateBaseRisksGrc p := by
  obtain ⟨e1, he1⟩ := h1 p (calculateMaturityScore p)
  obtain ⟨e2, he2⟩ := h2 p (identifyGaps p (calculateMaturityScore p))
    (calculateMaturityScore p)
  obtain ⟨e3, he3⟩ := h3 p
  obtain ⟨e4, he4⟩ := h4 p (generateBaseRisksGrc p)
  simp only [generateReport, he1, he2, he3, he4]
  exact ⟨generateFallbackSummary_ne_empty _ _ _, trivial,
    generateFallbackComplianceRoadmap_ne_empty _, trivial⟩

/-- C7 witness: a collaborator whose four calls always fail, a trivial
benchmark comparator, and the all-undefined profile. -/
theorem claim_C7_fallback_guarantee_witness :
    (∀ q m, ∃ e, failingAI.generateExecutiveSummary q m = .error e) ∧
    (∀ q g m, ∃ e, failingAI.generateRecommendations q g m = .error e) ∧
    (∀ q, ∃ e, failingAI.generateComplianceRoadmap q = .error e) ∧
    (∀ q r, ∃ e, failingAI.quantifyRisks q r = .error e) ∧
    ((generateReport failingAI (fun _ _ => ()) emptyProfile).executiveSummary
        ≠ "" ∧
      (generateReport failingAI (fun _ _ => ())
          emptyProfile).recommendations =
        generateFallbackRecommendations
          (identifyGaps emptyProfile
            (calculateMaturityScore emptyProfile)) ∧
      (generateReport failingAI (fun _ _ => ())
          emptyProfile).complianceRoadmap ≠ "" ∧
      (generateReport failingAI (fun _ _ => ()) emptyProfile).risks =
        generateBaseRisksGrc emptyProfile) :=
  ⟨fun _ _ => ⟨"AI generation failed", rfl⟩,
    fun _ _ _ => ⟨"AI generation failed", rfl⟩,
    fun _ => ⟨"AI generation failed", rfl⟩,
    fun _ _ => ⟨"AI generation failed", rfl⟩,
    claim_C7_fallback_guarantee failingAI (fun _ _ => ()) emptyProfile
      (fun _ _ => ⟨"AI generation failed", rfl⟩)
      (fun _ _ _ => ⟨"AI generation failed", rfl⟩)
      (fun _ => ⟨"AI generation failed", rfl⟩)
      (fun _ _ => ⟨"AI generation failed", rfl⟩)⟩
